import Mathlib

/-!
Verification of the reachability-discovery engine of baboossh
(`src/baboossh/endpoint.py`), as a shallow embedding in Lean 4.

The embedding follows the source file:
* the `Endpoint` structure mirrors the in-memory state of the Python
  `Endpoint` object (ip, port, host, scope, scanned, reachable, distance,
  found, auth);
* `Endpoint.asyncScan` embeds `Endpoint.__asyncScan`: the network is
  abstracted as the list of callback events the `ScanSSHClient` delivered
  during the bounded `create_connection` call, followed by the terminal
  outcome of that call (normal return, `asyncssh.Error` with a code,
  `OSError` with an errno, or `asyncio.TimeoutError`);
* `Endpoint.scan` embeds `Endpoint.scan`, including the gateway resolution
  and the `Path` (route edge) bookkeeping after the probe;
* the database is modelled explicitly: the persisted endpoint row as an
  `Option Endpoint` snapshot written by `save`, the route-edge table as a
  `List Edge`, and the endpoints table as a `List EndpointRow` for the
  query helpers `find_all`, `find_one` and `search`.

Collaborator classes (`Connection`, `Path`, `Host`, `dbConn`) are not part
of the source file; where a claim depends on them they are modelled from
the specification and marked as such in their doc comments.
-/

set_option autoImplicit false

namespace Baboossh

/-- Authentication mechanism callback events delivered by `ScanSSHClient`
during the `asyncssh.create_connection` negotiation
(`endpoint.py` lines 237-258). -/
inductive ScanEvent where
  | connectionMade
  | publicKeyAuthRequested
  | passwordAuthRequested
  | kbdintAuthRequested
  deriving Repr, DecidableEq

/-- Terminal outcome of the awaited `asyncssh.create_connection` call in
`__asyncScan` (`endpoint.py` lines 261-281): a normal return, an
`asyncssh.Error` carrying a code, an `OSError` carrying an errno, or an
`asyncio.TimeoutError` raised at the 3-second deadline. -/
inductive NetOutcome where
  | established
  | sshError (code : Nat)
  | osError (en : Nat)
  | timeout
  deriving Repr, DecidableEq

/-- `errno.EHOSTUNREACH` on Linux, tested in the `OSError` handler
(`endpoint.py` line 272). -/
def EHOSTUNREACH : Nat := 113

/-- In-memory state of a Python `Endpoint` object (`endpoint.py` lines
29-44).  `host` and `found` hold the ids of the referenced `Host` and
`Endpoint` records; `auth` is a set of method names, kept as a
duplicate-free list. -/
structure Endpoint where
  ip : String
  port : Nat
  host : Option Nat
  scope : Bool
  scanned : Bool
  reachable : Option Bool
  distance : Option Nat
  found : Option Nat
  auth : List String
  deriving Repr, DecidableEq

/-- A freshly constructed `Endpoint(ip, port)` for which no saved row
exists (`endpoint.py` lines 29-44; the reload-from-database branch at
lines 49-63 does not apply).  Address and port validation are performed by
the constructor before this state is built and are not modelled. -/
def Endpoint.new (ip : String) (port : Nat) : Endpoint :=
  { ip := ip, port := port, host := none, scope := true, scanned := false,
    reachable := none, distance := none, found := none, auth := [] }

/-- `set.add` on the `auth` attribute: Python set insertion. -/
def authAdd (l : List String) (a : String) : List String :=
  if a ∈ l then l else l ++ [a]

/-- Effect of one `ScanSSHClient` callback on the endpoint object
(`endpoint.py` lines 238-255): `connection_made` sets `reachable = True`,
the three auth-request callbacks add their method name to `auth`. -/
def applyEvent (e : Endpoint) (ev : ScanEvent) : Endpoint :=
  match ev with
  | .connectionMade => { e with reachable := some true }
  | .publicKeyAuthRequested => { e with auth := authAdd e.auth "privkey" }
  | .passwordAuthRequested => { e with auth := authAdd e.auth "password" }
  | .kbdintAuthRequested => { e with auth := authAdd e.auth "kbdint" }

/-- All callback events of one negotiation, applied in order. -/
def applyEvents (e : Endpoint) (evs : List ScanEvent) : Endpoint :=
  evs.foldl applyEvent e

/-- Modelled from the spec: the `Connection` collaborator class (not under
src/) used as a gateway.  The probe uses `gateway.distance` (the gateway's
hop distance) and `gateway.endpoint.host` (the `Host` the gateway's
endpoint is bound to, if any); the latter is collapsed here into the `host`
field holding the optional host id. -/
structure Connection where
  distance : Nat
  host : Option Nat
  deriving Repr, DecidableEq

/-- Result of `__asyncScan`: the endpoint object state, the persisted row
(`db`, written by `save()`), the console notices printed, and the boolean
return value. -/
structure ProbeResult where
  ep : Endpoint
  db : Option Endpoint
  printed : List String
  success : Bool
  deriving Repr, DecidableEq

/-- Success path of `__asyncScan` (`endpoint.py` lines 282-293), reached
both on a normal return of `create_connection` and on an `asyncssh.Error`
with code 14 (permission denied, the expected behaviour): print `Done`
unless silent, set `distance` to 0 without a gateway or to
`gateway.distance + 1` with one, save, return `True`. -/
def scanSuccessPath (e1 : Endpoint) (gateway : Option Connection)
    (silent : Bool) : ProbeResult :=
  let e2 := { e1 with distance :=
    match gateway with
    | none => some 0
    | some g => some (g.distance + 1) }
  { ep := e2, db := some e2,
    printed := if silent then [] else ["Done"], success := true }

/-- Embedding of `Endpoint.__asyncScan` (`endpoint.py` lines 234-293).
`self.scanned = True` is executed first; the callback events then mutate
the object during the awaited negotiation; finally the terminal outcome is
handled exactly as the `try/except` chain does:
* `asyncssh.Error` with code 14 falls through to the success path, any
  other code prints the error (regardless of `silent`) and returns `False`
  without saving;
* `OSError` prints `No route to host` when the errno is `EHOSTUNREACH` and
  not silent, and returns `False` without saving;
* `asyncio.TimeoutError` sets `reachable = False`, saves, prints `Timeout`
  unless silent, and returns `False`;
* a normal return takes the success path. -/
def Endpoint.asyncScan (e0 : Endpoint) (db0 : Option Endpoint)
    (gateway : Option Connection) (silent : Bool)
    (evs : List ScanEvent) (oc : NetOutcome) : ProbeResult :=
  let e1 := applyEvents { e0 with scanned := true } evs
  match oc with
  | .established => scanSuccessPath e1 gateway silent
  | .sshError code =>
      if code = 14 then
        scanSuccessPath e1 gateway silent
      else
        { ep := e1, db := db0, printed := ["asyncssh Error"], success := false }
  | .osError en =>
      { ep := e1, db := db0,
        printed := if en = EHOSTUNREACH && !silent then ["No route to host"] else [],
        success := false }
  | .timeout =>
      let e2 := { e1 with reachable := some false }
      { ep := e2, db := some e2,
        printed := if silent then [] else ["Timeout"], success := false }

/-- A route edge as stored in the paths table: source `Host` id (or none
for a direct, gateway-less route) and destination endpoint identity.
The spec's Route edge is a "directed pair (originHost-or-none,
destinationEndpoint)". -/
structure Edge where
  src : Option Nat
  dst : String × Nat
  deriving Repr, DecidableEq

/-- Modelled from the spec: `Path.save` of the `Path` collaborator class
(not under src/) persists the edge if absent — "idempotent; never
duplicate". -/
def path_save (edges : List Edge) (p : Edge) : List Edge :=
  if p ∈ edges then edges else edges ++ [p]

/-- Modelled from the spec: `Path.delete` of the `Path` collaborator class
(not under src/) removes the edge from the table. -/
def path_delete (edges : List Edge) (p : Edge) : List Edge :=
  edges.filter (fun q => q ≠ p)

/-- The route-edge bookkeeping at the end of `scan` (`endpoint.py` lines
341-346): on a successful probe (`done`) the candidate edge is saved
(`p.save()`); on a failed probe it is deleted when it previously existed
(`p.id is not None`). -/
def edgeBookkeeping (edges0 : List Edge) (p : Edge) (success : Bool) :
    List Edge :=
  if success then path_save edges0 p
  else if p ∈ edges0 then path_delete edges0 p else edges0

/-- The `gateway` argument of `Endpoint.scan` (`endpoint.py` line 295):
Python `"auto"`, Python `None` (a forced direct probe), or an explicit
`Connection`. -/
inductive GatewayArg where
  | auto
  | direct
  | conn (c : Connection)
  deriving Repr, DecidableEq

/-- The distinct no-path error: `NoPathException`, raised by the
`Connection` registry lookup and re-raised by `scan`
(`endpoint.py` lines 318-323). -/
inductive ScanError where
  | noPath
  deriving Repr, DecidableEq

/-- Result of `Endpoint.scan` when no exception escapes: endpoint object
state, persisted endpoint row, route-edge table, notices, and the boolean
return value `done`. -/
structure ScanOutput where
  ep : Endpoint
  db : Option Endpoint
  edges : List Edge
  printed : List String
  success : Bool
  deriving Repr, DecidableEq

/-- Body of `Endpoint.scan` after gateway resolution (`endpoint.py` lines
324-347): run the probe, then do the route-edge bookkeeping.  With no
gateway, `gwHost` is `None` and a `Path(None, self)` edge is still
constructed and maintained; with a gateway whose endpoint has no known
`Host`, `scan` returns the probe result with the edge table untouched;
otherwise the candidate edge is `(gatewayHost, self)`.  On a successful
probe the edge is saved; on a failed probe it is deleted when it already
existed (`p.id is not None`, i.e. the `Path` constructor found it in the
table). -/
def scanBody (e0 : Endpoint) (db0 : Option Endpoint) (edges0 : List Edge)
    (gateway : Option Connection) (silent : Bool)
    (evs : List ScanEvent) (oc : NetOutcome) : ScanOutput :=
  let pr := Endpoint.asyncScan e0 db0 gateway silent evs oc
  let gwHost : Option (Option Nat) :=
    match gateway with
    | none => some none
    | some c =>
      match c.host with
      | none => none
      | some h => some (some h)
  match gwHost with
  | none =>
      { ep := pr.ep, db := pr.db, edges := edges0,
        printed := pr.printed, success := pr.success }
  | some src =>
      { ep := pr.ep, db := pr.db,
        edges := edgeBookkeeping edges0 ⟨src, (e0.ip, e0.port)⟩ pr.success,
        printed := pr.printed, success := pr.success }

/-- Embedding of `Endpoint.scan` (`endpoint.py` lines 295-347).
`registry` models the result of `Connection.find_one(gateway_to=self)`
(a collaborator, modelled from the spec: the registry either yields a
`Connection` known to reach this endpoint, or signals `NoPathException`
when none exists); in `auto` mode that exception is re-raised, so the
caller receives the distinct `ScanError.noPath` rather than a boolean.
The acquisition of the tunnel handle (`gateway.initConnect()`) and its
closing have no effect on the modelled state. -/
def Endpoint.scan (e0 : Endpoint) (db0 : Option Endpoint)
    (edges0 : List Edge) (registry : Option Connection)
    (gateway : GatewayArg) (silent : Bool)
    (evs : List ScanEvent) (oc : NetOutcome) :
    Except ScanError ScanOutput :=
  match gateway with
  | .auto =>
      match registry with
      | none => .error .noPath
      | some c => .ok (scanBody e0 db0 edges0 (some c) silent evs oc)
  | .direct => .ok (scanBody e0 db0 edges0 none silent evs oc)
  | .conn c => .ok (scanBody e0 db0 edges0 (some c) silent evs oc)

/-- A row of the `endpoints` table (schema of `endpoint.py` lines 46 and
108-110): id, ip, port, host, scanned, reachable, distance, auth (the
JSON-serialized list, `NULL` when the set is empty), scope, found. -/
structure EndpointRow where
  id : Nat
  ip : String
  port : Nat
  host : Option Nat
  scanned : Bool
  reachable : Option Bool
  distance : Option Nat
  auth : Option String
  scope : Bool
  found : Option Nat
  deriving Repr, DecidableEq

/-- A Python error escaping one of the classmethod helpers:
`ValueError` (explicitly raised) or `NameError` (use of an undefined
variable). -/
inductive PyError where
  | valueError
  | nameError
  deriving Repr, DecidableEq

/-- Embedding of `Endpoint.find_all` (`endpoint.py` lines 139-167).  When
`found` is `None` the two scope queries run; when `found` is given, both
branches evaluate `endpoint.id` where `endpoint` is an undefined name (the
parameter is called `found`), so Python raises `NameError` before any
query executes. -/
def Endpoint.find_all (scope : Option Bool) (found : Option Nat)
    (db : List EndpointRow) : Except PyError (List EndpointRow) :=
  match found with
  | none =>
      match scope with
      | none => .ok db
      | some s => .ok (db.filter (fun r => r.scope == s))
  | some _ => .error .nameError

/-- `chars.startsWith pat`: does the character list start with `pat`? -/
def listStartsWith : List Char → List Char → Bool
  | [], _ => true
  | _ :: _, [] => false
  | p :: ps, c :: cs => p == c && listStartsWith ps cs

/-- Does `pat` occur as a contiguous run inside `s`? -/
def listContainsSub (pat : List Char) : List Char → Bool
  | [] => pat.isEmpty
  | c :: rest => listStartsWith pat (c :: rest) || listContainsSub pat rest

/-- SQL `column LIKE '%v%'` on a bound parameter: the column's text
contains `v` as a substring (wildcard characters inside `v` itself are not
modelled); `NULL` columns never match. -/
def likeContains (col : Option String) (v : String) : Bool :=
  match col with
  | none => false
  | some s => listContainsSub v.toList s.toList

/-- Python `s.partition(":")`, keeping the parts before and after the
first colon; when `s` has no colon the second component is `""`. -/
def partitionColon (s : String) : String × String :=
  let rec go : List Char → List Char × List Char
    | [] => ([], [])
    | c :: cs =>
      if c = ':' then ([], cs)
      else
        let p := go cs
        (c :: p.1, p.2)
  let p := go s.toList
  (String.mk p.1, String.mk p.2)

/-- Embedding of `Endpoint.find_one` (`endpoint.py` lines 169-201).  With
`endpoint_id = 0` the cursor is closed and `None` returned before any
query; with an `ip_port` whose part after the first colon is empty a
`ValueError` is raised; with neither argument `None` is returned without a
query.  Otherwise the matching row is looked up (ports are compared as
their SQL text). -/
def Endpoint.find_one (endpoint_id : Option Nat) (ip_port : Option String)
    (db : List EndpointRow) : Except PyError (Option EndpointRow) :=
  match endpoint_id with
  | some i =>
      if i = 0 then .ok none
      else .ok (db.find? (fun r => r.id == i))
  | none =>
      match ip_port with
      | some s =>
          let p := partitionColon s
          if p.2 = "" then .error .valueError
          else .ok (db.find? (fun r => r.ip == p.1 && toString r.port == p.2))
      | none => .ok none

/-- The search allow-list (`endpoint.py` line 27). -/
def Endpoint.search_fields : List String := ["ip", "port", "auth"]

/-- The text of the column named `field` in a row, for the `LIKE` match of
`search`; unknown fields have no column. -/
def columnOf (r : EndpointRow) (field : String) : Option String :=
  if field = "ip" then some r.ip
  else if field = "port" then some (toString r.port)
  else if field = "auth" then r.auth
  else none

/-- Embedding of `Endpoint.search` (`endpoint.py` lines 206-232): a field
outside `search_fields` raises `ValueError` before the cursor is even
obtained; otherwise the query selects the rows whose named column contains
`val` (`LIKE '%val%'`), restricted to in-scope rows unless `show_all`, and
the result list is accumulated row by row. -/
def Endpoint.search (field val : String) (show_all : Bool)
    (db : List EndpointRow) : Except PyError (List EndpointRow) :=
  if field ∉ Endpoint.search_fields then .error .valueError
  else .ok (db.foldl
    (fun ret r =>
      if (show_all || r.scope) && likeContains (columnOf r field) val then
        ret ++ [r]
      else ret)
    [])

/-! Helper lemmas about the embedding. -/

theorem applyEvent_distance (e : Endpoint) (ev : ScanEvent) :
    (applyEvent e ev).distance = e.distance := by
  cases ev <;> rfl

theorem applyEvent_scanned (e : Endpoint) (ev : ScanEvent) :
    (applyEvent e ev).scanned = e.scanned := by
  cases ev <;> rfl

theorem applyEvent_auth_mono (e : Endpoint) (ev : ScanEvent) (a : String)
    (h : a ∈ e.auth) : a ∈ (applyEvent e ev).auth := by
  cases ev <;> simp only [applyEvent, authAdd] <;> first
    | exact h
    | (split
       · exact h
       · exact List.mem_append_left _ h)

theorem applyEvents_distance (evs : List ScanEvent) (e : Endpoint) :
    (applyEvents e evs).distance = e.distance := by
  induction evs generalizing e with
  | nil => rfl
  | cons ev evs ih => rw [applyEvents, List.foldl_cons, ← applyEvents, ih, applyEvent_distance]

theorem applyEvents_scanned (evs : List ScanEvent) (e : Endpoint) :
    (applyEvents e evs).scanned = e.scanned := by
  induction evs generalizing e with
  | nil => rfl
  | cons ev evs ih => rw [applyEvents, List.foldl_cons, ← applyEvents, ih, applyEvent_scanned]

theorem applyEvents_auth_mono (evs : List ScanEvent) (e : Endpoint)
    (a : String) (h : a ∈ e.auth) : a ∈ (applyEvents e evs).auth := by
  induction evs generalizing e with
  | nil => exact h
  | cons ev evs ih =>
      rw [applyEvents, List.foldl_cons, ← applyEvents]
      exact ih _ (applyEvent_auth_mono e ev a h)

theorem path_save_count_self (l : List Edge) (p : Edge) :
    (path_save l p).count p = max (l.count p) 1 := by
  unfold path_save
  split
  · next h =>
      have hp : 0 < l.count p := List.count_pos_iff.mpr h
      omega
  · next h =>
      have hz : l.count p = 0 := List.count_eq_zero.mpr h
      rw [List.count_append, hz]
      simp

theorem path_save_count_other (l : List Edge) (p q : Edge) (h : q ≠ p) :
    (path_save l p).count q = l.count q := by
  unfold path_save
  split
  · rfl
  · rw [List.count_append]
    have : List.count q [p] = 0 := by
      rw [List.count_eq_zero]
      simp [h]
    omega

theorem path_save_of_mem (l : List Edge) (p : Edge) (h : p ∈ l) :
    path_save l p = l := by
  unfold path_save
  simp [h]

theorem path_delete_count_self (l : List Edge) (p : Edge) :
    (path_delete l p).count p = 0 := by
  rw [List.count_eq_zero]
  intro hmem
  have := List.of_mem_filter hmem
  simp at this

theorem path_delete_count_other (l : List Edge) (p q : Edge) (h : q ≠ p) :
    (path_delete l p).count q = l.count q := by
  unfold path_delete
  induction l with
  | nil => rfl
  | cons x xs ih =>
      rw [List.filter_cons]
      by_cases hx : x = p
      · rw [if_neg (by simp [hx]), ih, List.count_cons]
        have hxq : (x == q) = false :=
          beq_eq_false_iff_ne.mpr (fun hc => h (hc.symm.trans hx))
        rw [hxq]
        simp
      · rw [if_pos (by simp [hx]), List.count_cons, List.count_cons, ih]

theorem edgeBookkeeping_count_self (edges0 : List Edge) (p : Edge) (b : Bool) :
    (edgeBookkeeping edges0 p b).count p =
      if b then max (edges0.count p) 1 else 0 := by
  cases b
  · simp only [edgeBookkeeping, Bool.false_eq_true, if_false]
    split
    · exact path_delete_count_self _ _
    · next h => exact List.count_eq_zero.mpr h
  · simp only [edgeBookkeeping, if_true]
    exact path_save_count_self _ _

theorem edgeBookkeeping_count_other (edges0 : List Edge) (p q : Edge)
    (b : Bool) (h : q ≠ p) :
    (edgeBookkeeping edges0 p b).count q = edges0.count q := by
  cases b
  · simp only [edgeBookkeeping, Bool.false_eq_true, if_false]
    split
    · exact path_delete_count_other _ _ _ h
    · rfl
  · simp only [edgeBookkeeping, if_true]
    exact path_save_count_other _ _ _ h

theorem edgeBookkeeping_true_of_mem (edges0 : List Edge) (p : Edge)
    (h : p ∈ edges0) : edgeBookkeeping edges0 p true = edges0 := by
  simp only [edgeBookkeeping, if_true]
  exact path_save_of_mem _ _ h

theorem scanBody_success_eq (e0 : Endpoint) (db0 : Option Endpoint)
    (edges0 : List Edge) (g : Option Connection) (silent : Bool)
    (evs : List ScanEvent) (oc : NetOutcome) :
    (scanBody e0 db0 edges0 g silent evs oc).success =
      (Endpoint.asyncScan e0 db0 g silent evs oc).success := by
  unfold scanBody
  cases g with
  | none => rfl
  | some c =>
      cases hc : c.host with
      | none => simp [hc]
      | some h => simp [hc]

theorem scanBody_edges_conn (e0 : Endpoint) (db0 : Option Endpoint)
    (edges0 : List Edge) (c : Connection) (h : Nat) (silent : Bool)
    (evs : List ScanEvent) (oc : NetOutcome) (hch : c.host = some h) :
    (scanBody e0 db0 edges0 (some c) silent evs oc).edges =
      edgeBookkeeping edges0 ⟨some h, (e0.ip, e0.port)⟩
        (Endpoint.asyncScan e0 db0 (some c) silent evs oc).success := by
  simp [scanBody, hch]

theorem scanBody_edges_nohost (e0 : Endpoint) (db0 : Option Endpoint)
    (edges0 : List Edge) (c : Connection) (silent : Bool)
    (evs : List ScanEvent) (oc : NetOutcome) (hch : c.host = none) :
    (scanBody e0 db0 edges0 (some c) silent evs oc).edges = edges0 := by
  simp [scanBody, hch]

theorem scanBody_edges_direct (e0 : Endpoint) (db0 : Option Endpoint)
    (edges0 : List Edge) (silent : Bool) (evs : List ScanEvent)
    (oc : NetOutcome) :
    (scanBody e0 db0 edges0 none silent evs oc).edges =
      edgeBookkeeping edges0 ⟨none, (e0.ip, e0.port)⟩
        (Endpoint.asyncScan e0 db0 none silent evs oc).success := rfl

theorem foldl_append_filter {α : Type} (p : α → Bool) (l : List α)
    (acc : List α) :
    l.foldl (fun ret r => if p r then ret ++ [r] else ret) acc =
      acc ++ l.filter p := by
  induction l generalizing acc with
  | nil => simp
  | cons x xs ih =>
      rw [List.foldl_cons, ih, List.filter_cons]
      by_cases hx : p x
      · simp [hx]
      · simp [hx]

theorem asyncScan_success_distance (e0 : Endpoint) (db0 : Option Endpoint)
    (gw : Option Connection) (silent : Bool) (evs : List ScanEvent)
    (oc : NetOutcome)
    (h : (Endpoint.asyncScan e0 db0 gw silent evs oc).success = true) :
    (Endpoint.asyncScan e0 db0 gw silent evs oc).ep.distance =
      some (match gw with | none => 0 | some g => g.distance + 1) := by
  cases oc with
  | established => cases gw <;> rfl
  | sshError code =>
      by_cases h14 : code = 14
      · subst h14
        cases gw <;> rfl
      · exfalso
        simp [Endpoint.asyncScan, h14] at h
  | osError en => simp [Endpoint.asyncScan] at h
  | timeout => simp [Endpoint.asyncScan] at h

/-! Claim theorems. -/

/-- C2: For every successful probe, the resulting distance is 0 when no
gateway was used, and `gateway.distance + 1` when a gateway at distance
`d` was used. -/
theorem scan_distance_of_success (e0 : Endpoint) (db0 : Option Endpoint)
    (gw : Option Connection) (silent : Bool) (evs : List ScanEvent)
    (oc : NetOutcome)
    (h : (Endpoint.asyncScan e0 db0 gw silent evs oc).success = true) :
    (Endpoint.asyncScan e0 db0 gw silent evs oc).ep.distance =
      some (match gw with | none => 0 | some g => g.distance + 1) :=
  asyncScan_success_distance e0 db0 gw silent evs oc h

/-- Witness for C2: a probe through a gateway at distance 1 yields
distance 2. -/
theorem scan_distance_of_success_witness :
    (Endpoint.asyncScan (Endpoint.new "10.0.0.6" 22) none
      (some ⟨1, some 5⟩) false [ScanEvent.connectionMade]
      NetOutcome.established).ep.distance = some 2 :=
  scan_distance_of_success (Endpoint.new "10.0.0.6" 22) none (some ⟨1, some 5⟩)
    false [ScanEvent.connectionMade] NetOutcome.established rfl

/-- C4: A timed-out probe marks the endpoint Unreachable and persists that
state, prints `Timeout` unless silent, returns failure, has set
`scanned`, never changes `distance`, and for a host that never responded
(no callback events) leaves `auth` unchanged. -/
theorem scan_timeout_spec (e0 : Endpoint) (db0 : Option Endpoint)
    (gw : Option Connection) (silent : Bool) (evs : List ScanEvent) :
    (Endpoint.asyncScan e0 db0 gw silent evs .timeout).success = false ∧
    (Endpoint.asyncScan e0 db0 gw silent evs .timeout).ep.reachable = some false ∧
    (Endpoint.asyncScan e0 db0 gw silent evs .timeout).db =
      some (Endpoint.asyncScan e0 db0 gw silent evs .timeout).ep ∧
    (Endpoint.asyncScan e0 db0 gw silent evs .timeout).ep.scanned = true ∧
    (Endpoint.asyncScan e0 db0 gw silent evs .timeout).printed =
      (if silent then [] else ["Timeout"]) ∧
    (Endpoint.asyncScan e0 db0 gw silent evs .timeout).ep.distance = e0.distance ∧
    (evs = [] →
      (Endpoint.asyncScan e0 db0 gw silent evs .timeout).ep.auth = e0.auth) := by
  refine ⟨rfl, rfl, rfl, ?_, rfl, ?_, ?_⟩
  · exact applyEvents_scanned evs _
  · exact applyEvents_distance evs _
  · intro hev
    subst hev
    rfl

/-- Witness for C4: the spec's scenario, a fresh `10.0.0.5:22` scanned
directly against a host that never responds. -/
theorem scan_timeout_spec_witness :
    (Endpoint.asyncScan (Endpoint.new "10.0.0.5" 22) none none false []
      NetOutcome.timeout).success = false ∧
    (Endpoint.asyncScan (Endpoint.new "10.0.0.5" 22) none none false []
      NetOutcome.timeout).ep.reachable = some false ∧
    (Endpoint.asyncScan (Endpoint.new "10.0.0.5" 22) none none false []
      NetOutcome.timeout).ep.auth = [] ∧
    (Endpoint.asyncScan (Endpoint.new "10.0.0.5" 22) none none false []
      NetOutcome.timeout).ep.distance = none := by
  have h := scan_timeout_spec (Endpoint.new "10.0.0.5" 22) none none false []
  exact ⟨h.1, h.2.1, h.2.2.2.2.2.2 rfl, h.2.2.2.2.2.1⟩

/-- C8: On network-level unreachability (`EHOSTUNREACH`, i.e. no route to
host, which precedes any negotiation callback) the probe returns failure,
the persisted record is untouched, `reachable` keeps its prior value
(Unknown stays Unknown), only the in-memory `scanned` flag is set, `auth`
and `distance` are unchanged, and `No route to host` is printed unless
silent. -/
theorem scan_hostunreach_spec (e0 : Endpoint) (db0 : Option Endpoint)
    (gw : Option Connection) (silent : Bool) :
    (Endpoint.asyncScan e0 db0 gw silent [] (.osError EHOSTUNREACH)).success = false ∧
    (Endpoint.asyncScan e0 db0 gw silent [] (.osError EHOSTUNREACH)).db = db0 ∧
    (Endpoint.asyncScan e0 db0 gw silent [] (.osError EHOSTUNREACH)).ep.reachable
      = e0.reachable ∧
    (Endpoint.asyncScan e0 db0 gw silent [] (.osError EHOSTUNREACH)).ep.scanned = true ∧
    (Endpoint.asyncScan e0 db0 gw silent [] (.osError EHOSTUNREACH)).ep.auth = e0.auth ∧
    (Endpoint.asyncScan e0 db0 gw silent [] (.osError EHOSTUNREACH)).ep.distance
      = e0.distance ∧
    (Endpoint.asyncScan e0 db0 gw silent [] (.osError EHOSTUNREACH)).printed =
      (if silent then [] else ["No route to host"]) := by
  cases silent <;> exact ⟨rfl, rfl, rfl, rfl, rfl, rfl, rfl⟩

/-- C5: In automatic gateway mode, when the Connection registry finds no
Connection reaching the target, `scan` propagates the distinct no-path
error, which can never be an ordinary `False` probe return. -/
theorem scan_nopath_spec (e0 : Endpoint) (db0 : Option Endpoint)
    (edges0 : List Edge) (silent : Bool) (evs : List ScanEvent)
    (oc : NetOutcome) :
    Endpoint.scan e0 db0 edges0 none GatewayArg.auto silent evs oc =
      Except.error ScanError.noPath ∧
    (∀ out : ScanOutput,
      (Except.error ScanError.noPath : Except ScanError ScanOutput) ≠
        Except.ok out) :=
  ⟨rfl, fun _ h => Except.noConfusion h⟩

/-- Witness for C5: a concrete automatic scan with an empty registry. -/
theorem scan_nopath_spec_witness :
    Endpoint.scan (Endpoint.new "10.0.0.9" 22) none [] none GatewayArg.auto
      false [] NetOutcome.established = Except.error ScanError.noPath :=
  (scan_nopath_spec (Endpoint.new "10.0.0.9" 22) none [] false []
    NetOutcome.established).1

theorem partitionColon_go_no_colon (cs : List Char) (h : ':' ∉ cs) :
    partitionColon.go cs = (cs, []) := by
  induction cs with
  | nil => rfl
  | cons c cs ih =>
      rw [partitionColon.go]
      have hc : ¬(c = ':') := fun hc => h (by rw [hc]; exact List.mem_cons_self _ _)
      rw [if_neg hc, ih (fun hm => h (List.mem_cons_of_mem c hm))]

/-- C10: `find_one` with an `ip_port` string that has no colon (so the
part after the colon is empty) raises `ValueError`; with
`endpoint_id = 0`, or with neither argument, it returns `None` without
consulting the table (the result is the same for every `db`). -/
theorem find_one_spec (s : String) (db : List EndpointRow)
    (h : ':' ∉ s.toList) :
    Endpoint.find_one none (some s) db = Except.error PyError.valueError ∧
    (∀ (ipp : Option String) (db2 : List EndpointRow),
      Endpoint.find_one (some 0) ipp db2 = Except.ok none) ∧
    (∀ db2 : List EndpointRow,
      Endpoint.find_one none none db2 = Except.ok none) := by
  refine ⟨?_, fun _ _ => rfl, fun _ => rfl⟩
  unfold Endpoint.find_one partitionColon
  simp only [partitionColon_go_no_colon s.toList h]
  simp

/-- Witness for C10 at the colon-free string `10.0.0.5`. -/
theorem find_one_spec_witness :
    Endpoint.find_one none (some "10.0.0.5") [] = Except.error PyError.valueError ∧
    Endpoint.find_one (some 0) none [] = Except.ok none :=
  ⟨(find_one_spec "10.0.0.5" [] (by decide)).1,
   (find_one_spec "10.0.0.5" [] (by decide)).2.1 none []⟩

/-- C9 (code bug): `find_all` with a `found` filter evaluates the
undefined name `endpoint` and raises `NameError` instead of returning the
matching Endpoints, while the same call without the filter succeeds. -/
theorem find_all_found_raises :
    Endpoint.find_all none (some 1)
      [⟨1, "10.0.0.5", 22, none, false, none, none, none, true, none⟩] =
      Except.error PyError.nameError ∧
    Endpoint.find_all none none
      [⟨1, "10.0.0.5", 22, none, false, none, none, none, true, none⟩] =
      Except.ok [⟨1, "10.0.0.5", 22, none, false, none, none, none, true, none⟩] :=
  ⟨rfl, rfl⟩

/-- C6: `search` on a field outside the allow-list `ip, port, auth` fails
with `ValueError` whatever the table holds (so before any query runs),
and on a field of the allow-list returns exactly the rows whose column
contains the value, restricted to in-scope rows unless `show_all`. -/
theorem search_spec :
    (∀ (field val : String) (show_all : Bool) (db : List EndpointRow),
      field ∉ Endpoint.search_fields →
      Endpoint.search field val show_all db = Except.error PyError.valueError) ∧
    (∀ (field val : String) (show_all : Bool) (db : List EndpointRow),
      field ∈ Endpoint.search_fields →
      Endpoint.search field val show_all db = Except.ok (db.filter
        (fun r => (show_all || r.scope) && likeContains (columnOf r field) val))) := by
  constructor
  · intro field val show_all db hf
    unfold Endpoint.search
    rw [if_pos hf]
  · intro field val show_all db hf
    unfold Endpoint.search
    rw [if_neg (not_not.mpr hf), foldl_append_filter]
    simp

/-- Witness for C6: the disallowed field `host` is rejected, the allowed
field `ip` searches the table. -/
theorem search_spec_witness :
    ("host" ∉ Endpoint.search_fields) ∧
    Endpoint.search "host" "x" false [] = Except.error PyError.valueError ∧
    Endpoint.search "ip" "0.0" true
      [⟨1, "10.0.0.5", 22, none, false, none, none, none, true, none⟩] =
      Except.ok [⟨1, "10.0.0.5", 22, none, false, none, none, none, true, none⟩] := by
  refine ⟨by decide, search_spec.1 "host" "x" false [] (by decide), ?_⟩
  rw [search_spec.2 "ip" "0.0" true _ (by decide)]
  rfl

/-- C3 counterexample: starting from a fresh endpoint, a successful direct
probe (distance becomes 0) followed by a timed-out probe leaves
`distance = some 0` while `reachable = Unreachable`, refuting
"`reachable = Reachable` if and only if `distance` is set". -/
theorem reachable_iff_distance_cex :
    (Endpoint.asyncScan
      (Endpoint.asyncScan (Endpoint.new "10.0.0.5" 22) none none false
        [ScanEvent.connectionMade] NetOutcome.established).ep
      (Endpoint.asyncScan (Endpoint.new "10.0.0.5" 22) none none false
        [ScanEvent.connectionMade] NetOutcome.established).db
      none false [] NetOutcome.timeout).ep.reachable = some false ∧
    (Endpoint.asyncScan
      (Endpoint.asyncScan (Endpoint.new "10.0.0.5" 22) none none false
        [ScanEvent.connectionMade] NetOutcome.established).ep
      (Endpoint.asyncScan (Endpoint.new "10.0.0.5" 22) none none false
        [ScanEvent.connectionMade] NetOutcome.established).db
      none false [] NetOutcome.timeout).ep.distance = some 0 ∧
    ¬(((Endpoint.asyncScan
      (Endpoint.asyncScan (Endpoint.new "10.0.0.5" 22) none none false
        [ScanEvent.connectionMade] NetOutcome.established).ep
      (Endpoint.asyncScan (Endpoint.new "10.0.0.5" 22) none none false
        [ScanEvent.connectionMade] NetOutcome.established).db
      none false [] NetOutcome.timeout).ep.reachable = some true) ↔
      ((Endpoint.asyncScan
      (Endpoint.asyncScan (Endpoint.new "10.0.0.5" 22) none none false
        [ScanEvent.connectionMade] NetOutcome.established).ep
      (Endpoint.asyncScan (Endpoint.new "10.0.0.5" 22) none none false
        [ScanEvent.connectionMade] NetOutcome.established).db
      none false [] NetOutcome.timeout).ep.distance ≠ none)) := by
  decide

/-- C3 (amended): after every successful probe `distance` is set, but the
equivalence with `reachable` fails in general: a timed-out probe marks
`reachable = Unreachable` while leaving any previously set `distance`
untouched. -/
theorem reachable_distance_amended :
    (∀ (e0 : Endpoint) (db0 : Option Endpoint) (gw : Option Connection)
        (silent : Bool) (evs : List ScanEvent) (oc : NetOutcome),
      (Endpoint.asyncScan e0 db0 gw silent evs oc).success = true →
      (Endpoint.asyncScan e0 db0 gw silent evs oc).ep.distance ≠ none) ∧
    (∀ (e0 : Endpoint) (db0 : Option Endpoint) (gw : Option Connection)
        (silent : Bool) (evs : List ScanEvent),
      (Endpoint.asyncScan e0 db0 gw silent evs .timeout).ep.distance = e0.distance ∧
      (Endpoint.asyncScan e0 db0 gw silent evs .timeout).ep.reachable = some false) := by
  constructor
  · intro e0 db0 gw silent evs oc h
    rw [asyncScan_success_distance e0 db0 gw silent evs oc h]
    exact fun hc => Option.noConfusion hc
  · intro e0 db0 gw silent evs
    exact ⟨applyEvents_distance evs _, rfl⟩

/-- Witness for the amended C3: a successful direct probe has a set
distance. -/
theorem reachable_distance_amended_witness :
    (Endpoint.asyncScan (Endpoint.new "10.0.0.4" 22) none none false []
      NetOutcome.established).ep.distance ≠ none :=
  reachable_distance_amended.1 (Endpoint.new "10.0.0.4" 22) none none false []
    NetOutcome.established rfl

/-- C7 counterexample: a probe that observes the connection and a password
offer and then times out keeps `auth` non-empty while
`reachable = Unreachable`, and persists that state — refuting
"`authMethods` non-empty only if `reachable = Reachable`". -/
theorem auth_nonempty_unreachable_cex :
    (Endpoint.asyncScan (Endpoint.new "10.0.0.7" 22) none none false
      [ScanEvent.connectionMade, ScanEvent.passwordAuthRequested]
      NetOutcome.timeout).ep.auth = ["password"] ∧
    (Endpoint.asyncScan (Endpoint.new "10.0.0.7" 22) none none false
      [ScanEvent.connectionMade, ScanEvent.passwordAuthRequested]
      NetOutcome.timeout).ep.reachable = some false ∧
    (Endpoint.asyncScan (Endpoint.new "10.0.0.7" 22) none none false
      [ScanEvent.connectionMade, ScanEvent.passwordAuthRequested]
      NetOutcome.timeout).db =
      some (Endpoint.asyncScan (Endpoint.new "10.0.0.7" 22) none none false
        [ScanEvent.connectionMade, ScanEvent.passwordAuthRequested]
        NetOutcome.timeout).ep := by
  decide

/-- C7 (amended): a timed-out probe retains, and persists, exactly the
authentication methods present before or observed during the cancelled
negotiation, even though `reachable` becomes Unreachable; non-empty
`authMethods` therefore does not imply `reachable = Reachable`. -/
theorem auth_retained_on_timeout :
    (∀ (e0 : Endpoint) (db0 : Option Endpoint) (gw : Option Connection)
        (silent : Bool) (evs : List ScanEvent),
      (Endpoint.asyncScan e0 db0 gw silent evs .timeout).ep.auth =
        (applyEvents { e0 with scanned := true } evs).auth ∧
      (Endpoint.asyncScan e0 db0 gw silent evs .timeout).ep.reachable = some false ∧
      (Endpoint.asyncScan e0 db0 gw silent evs .timeout).db =
        some (Endpoint.asyncScan e0 db0 gw silent evs .timeout).ep) ∧
    (∀ (e0 : Endpoint) (db0 : Option Endpoint) (gw : Option Connection)
        (silent : Bool) (evs : List ScanEvent) (a : String),
      a ∈ e0.auth →
      a ∈ (Endpoint.asyncScan e0 db0 gw silent evs .timeout).ep.auth) := by
  refine ⟨fun e0 db0 gw silent evs => ⟨rfl, rfl, rfl⟩, ?_⟩
  intro e0 db0 gw silent evs a ha
  exact applyEvents_auth_mono evs _ a ha

/-- Witness for the amended C7: a previously known `privkey` method
survives a timed-out probe. -/
theorem auth_retained_on_timeout_witness :
    "privkey" ∈ (Endpoint.asyncScan
      { Endpoint.new "10.0.0.8" 22 with auth := ["privkey"] } none none false
      [ScanEvent.passwordAuthRequested] NetOutcome.timeout).ep.auth :=
  auth_retained_on_timeout.2
    { Endpoint.new "10.0.0.8" 22 with auth := ["privkey"] } none none false
    [ScanEvent.passwordAuthRequested] "privkey" (by decide)

/-- C1 counterexample: with no gateway at all (`gateway=None`), a
successful scan still performs route-edge bookkeeping: it persists the
direct edge `(none, 10.0.0.5:22)` instead of skipping edge maintenance. -/
theorem scan_direct_edge_cex :
    (Endpoint.scan (Endpoint.new "10.0.0.5" 22) none [] none
      GatewayArg.direct false [ScanEvent.connectionMade]
      NetOutcome.established).map ScanOutput.edges =
      Except.ok [⟨none, ("10.0.0.5", 22)⟩] := rfl

/-- C1 (amended): `scan` with a gateway dispatches to the probe-and-
bookkeeping body; when the gateway's Connection is bound to Host `h`, a
successful probe persists the edge `(h, target)` idempotently (its
multiplicity becomes 1 when absent, the table is unchanged when present,
never a duplicate, no other edge is affected), a failed probe removes the
edge when it previously existed (its multiplicity drops to 0, no other
edge is affected); when the gateway's Connection has no known Host, the
edge table is untouched and the probe result is returned unchanged; but
when no gateway was used, the bookkeeping is not skipped: it is applied
to the direct edge `(none, target)` in exactly the same way. -/
theorem scan_edges_amended :
    (∀ (e0 : Endpoint) (db0 : Option Endpoint) (edges0 : List Edge)
        (registry : Option Connection) (c : Connection) (silent : Bool)
        (evs : List ScanEvent) (oc : NetOutcome),
      Endpoint.scan e0 db0 edges0 registry (GatewayArg.conn c) silent evs oc =
        Except.ok (scanBody e0 db0 edges0 (some c) silent evs oc) ∧
      Endpoint.scan e0 db0 edges0 registry GatewayArg.direct silent evs oc =
        Except.ok (scanBody e0 db0 edges0 none silent evs oc)) ∧
    (∀ (e0 : Endpoint) (db0 : Option Endpoint) (edges0 : List Edge)
        (c : Connection) (h : Nat) (silent : Bool) (evs : List ScanEvent)
        (oc : NetOutcome),
      c.host = some h →
      (scanBody e0 db0 edges0 (some c) silent evs oc).success = true →
      (scanBody e0 db0 edges0 (some c) silent evs oc).edges.count
          ⟨some h, (e0.ip, e0.port)⟩ =
        max (edges0.count ⟨some h, (e0.ip, e0.port)⟩) 1 ∧
      (⟨some h, (e0.ip, e0.port)⟩ ∈ edges0 →
        (scanBody e0 db0 edges0 (some c) silent evs oc).edges = edges0) ∧
      (∀ q : Edge, q ≠ ⟨some h, (e0.ip, e0.port)⟩ →
        (scanBody e0 db0 edges0 (some c) silent evs oc).edges.count q =
          edges0.count q)) ∧
    (∀ (e0 : Endpoint) (db0 : Option Endpoint) (edges0 : List Edge)
        (c : Connection) (h : Nat) (silent : Bool) (evs : List ScanEvent)
        (oc : NetOutcome),
      c.host = some h →
      (scanBody e0 db0 edges0 (some c) silent evs oc).success = false →
      (scanBody e0 db0 edges0 (some c) silent evs oc).edges.count
          ⟨some h, (e0.ip, e0.port)⟩ = 0 ∧
      (∀ q : Edge, q ≠ ⟨some h, (e0.ip, e0.port)⟩ →
        (scanBody e0 db0 edges0 (some c) silent evs oc).edges.count q =
          edges0.count q)) ∧
    (∀ (e0 : Endpoint) (db0 : Option Endpoint) (edges0 : List Edge)
        (c : Connection) (silent : Bool) (evs : List ScanEvent)
        (oc : NetOutcome),
      c.host = none →
      (scanBody e0 db0 edges0 (some c) silent evs oc).edges = edges0 ∧
      (scanBody e0 db0 edges0 (some c) silent evs oc).success =
        (Endpoint.asyncScan e0 db0 (some c) silent evs oc).success) ∧
    (∀ (e0 : Endpoint) (db0 : Option Endpoint) (edges0 : List Edge)
        (silent : Bool) (evs : List ScanEvent) (oc : NetOutcome),
      ((scanBody e0 db0 edges0 none silent evs oc).success = true →
        (scanBody e0 db0 edges0 none silent evs oc).edges.count
            ⟨none, (e0.ip, e0.port)⟩ =
          max (edges0.count ⟨none, (e0.ip, e0.port)⟩) 1) ∧
      ((scanBody e0 db0 edges0 none silent evs oc).success = false →
        (scanBody e0 db0 edges0 none silent evs oc).edges.count
            ⟨none, (e0.ip, e0.port)⟩ = 0)) := by
  refine ⟨fun _ _ _ _ _ _ _ _ => ⟨rfl, rfl⟩, ?_, ?_, ?_, ?_⟩
  · intro e0 db0 edges0 c h silent evs oc hch hs
    have hs' : (Endpoint.asyncScan e0 db0 (some c) silent evs oc).success = true := by
      rw [← scanBody_success_eq e0 db0 edges0 (some c) silent evs oc]
      exact hs
    rw [scanBody_edges_conn e0 db0 edges0 c h silent evs oc hch, hs']
    refine ⟨?_, ?_, ?_⟩
    · rw [edgeBookkeeping_count_self]
      simp
    · intro hmem
      exact edgeBookkeeping_true_of_mem _ _ hmem
    · intro q hq
      exact edgeBookkeeping_count_other _ _ _ _ hq
  · intro e0 db0 edges0 c h silent evs oc hch hs
    have hs' : (Endpoint.asyncScan e0 db0 (some c) silent evs oc).success = false := by
      rw [← scanBody_success_eq e0 db0 edges0 (some c) silent evs oc]
      exact hs
    rw [scanBody_edges_conn e0 db0 edges0 c h silent evs oc hch, hs']
    refine ⟨?_, ?_⟩
    · rw [edgeBookkeeping_count_self]
      simp
    · intro q hq
      exact edgeBookkeeping_count_other _ _ _ _ hq
  · intro e0 db0 edges0 c silent evs oc hch
    exact ⟨scanBody_edges_nohost e0 db0 edges0 c silent evs oc hch,
      scanBody_success_eq e0 db0 edges0 (some c) silent evs oc⟩
  · intro e0 db0 edges0 silent evs oc
    constructor
    · intro hs
      have hs' : (Endpoint.asyncScan e0 db0 none silent evs oc).success = true := by
        rw [← scanBody_success_eq e0 db0 edges0 none silent evs oc]
        exact hs
      rw [scanBody_edges_direct, hs', edgeBookkeeping_count_self]
      simp
    · intro hs
      have hs' : (Endpoint.asyncScan e0 db0 none silent evs oc).success = false := by
        rw [← scanBody_success_eq e0 db0 edges0 none silent evs oc]
        exact hs
      rw [scanBody_edges_direct, hs', edgeBookkeeping_count_self]
      simp

/-- Witness for the amended C1: a successful probe through a gateway on
Host 7 records the edge `(7, 10.0.0.6:22)` exactly once in an empty
table. -/
theorem scan_edges_amended_witness :
    (scanBody (Endpoint.new "10.0.0.6" 22) none [] (some ⟨1, some 7⟩) false
      [ScanEvent.connectionMade] NetOutcome.established).edges.count
      ⟨some 7, ("10.0.0.6", 22)⟩ = 1 := by
  have h := (scan_edges_amended.2.1 (Endpoint.new "10.0.0.6" 22) none []
    ⟨1, some 7⟩ 7 false [ScanEvent.connectionMade] NetOutcome.established
    rfl rfl).1
  exact h.trans (by decide)

end Baboossh
